import Mathlib

/-!
Verification development for the rpomodoro terminal pomodoro timer
(src/main.rs). The timer state machine, the configuration editor and the
render/input loop's state-changing behaviour are shallowly embedded below:
`std::time::Instant` values are natural numbers (time units since an
arbitrary epoch; the monotonic clock guarantees the current instant is
never before `last_tick`, and `Instant::duration_since` saturates at zero,
which truncated `Nat` subtraction models exactly), and `std::time::Duration`
values are natural numbers in the same unit, with one unit per second
(`Duration::from_secs(m * 60)` becomes `m * 60`).  Durations are
non-negative by construction in both Rust and this model.  Terminal
rendering and file I/O are external collaborators; only their
state-changing effects are modelled.
-/

namespace Rpomodoro

/-- The persisted configuration record (`struct Config`).  The numeric
fields are `u32` in Rust; they are modelled as `Nat`, with the `u32` range
`< 2^32` imposed where it matters (deserialization, wrapping addition). -/
structure Config where
  theme : String
  work_duration : Nat
  short_break : Nat
  long_break : Nat
  cycles_before_long : Nat
deriving Repr, DecidableEq

/-- `impl Default for Config`. -/
def Config.default : Config :=
  { theme := "blue", work_duration := 25, short_break := 5,
    long_break := 15, cycles_before_long := 4 }

/-- `enum PomodoroState`. -/
inductive PomodoroState where
  | Work
  | ShortBreak
  | LongBreak
deriving Repr, DecidableEq

/-- An RGB colour (`crossterm::style::Color::Rgb`). -/
structure Rgb where
  r : Nat
  g : Nat
  b : Nat
deriving Repr, DecidableEq

/-- `struct Theme`. -/
structure Theme where
  primary : Rgb
  dim : Rgb
deriving Repr, DecidableEq

/-- `Theme::from_name`.  The Rust wildcard arm recurses as
`Theme::from_name("blue")`; that call is unfolded here, yielding the same
colours as the `"blue"` arm. -/
def Theme.from_name (name : String) : Theme :=
  match name with
  | "blue" => ⟨⟨96, 165, 250⟩, ⟨147, 197, 253⟩⟩
  | "purple" => ⟨⟨192, 132, 252⟩, ⟨233, 213, 255⟩⟩
  | "green" => ⟨⟨74, 222, 128⟩, ⟨134, 239, 172⟩⟩
  | "red" => ⟨⟨248, 113, 113⟩, ⟨254, 202, 202⟩⟩
  | "orange" => ⟨⟨251, 191, 36⟩, ⟨253, 224, 71⟩⟩
  | "cyan" => ⟨⟨34, 211, 238⟩, ⟨103, 232, 249⟩⟩
  | _ => ⟨⟨96, 165, 250⟩, ⟨147, 197, 253⟩⟩

/-- The mutable application state (`struct App`).  `config_path` is a pure
I/O handle and is omitted; `time_remaining` and `last_tick` are in the
time units described in the file header. -/
structure App where
  config : Config
  state : PomodoroState
  cycle_count : Nat
  time_remaining : Nat
  last_tick : Nat
  paused : Bool
  theme : Theme
  width : Nat
  height : Nat
  config_mode : Bool
  config_cursor : Nat
deriving Repr, DecidableEq

/-- `Duration::checked_sub`: `some (a - b)` when the difference is
non-negative, `none` otherwise. -/
def checked_sub (a b : Nat) : Option Nat :=
  if b ≤ a then some (a - b) else none

/-- `App::advance_state`.  `cycle_count += 1` cannot overflow `u32`: the
counter is reset whenever it reaches `cycles_before_long`, which is itself
a `u32`, so the increment stays within `u32` range whenever the
configuration does. -/
def App.advance_state (app : App) : App :=
  match app.state with
  | PomodoroState.Work =>
    let cc := app.cycle_count + 1
    if app.config.cycles_before_long ≤ cc then
      { app with state := PomodoroState.LongBreak,
                 time_remaining := app.config.long_break * 60,
                 cycle_count := 0,
                 paused := true }
    else
      { app with state := PomodoroState.ShortBreak,
                 time_remaining := app.config.short_break * 60,
                 cycle_count := cc,
                 paused := true }
  | PomodoroState.ShortBreak | PomodoroState.LongBreak =>
    { app with state := PomodoroState.Work,
               time_remaining := app.config.work_duration * 60,
               paused := true }

/-- `App::update`, with the instant `Instant::now()` observed by the call
passed explicitly as `now`. -/
def App.update (app : App) (now : Nat) : App :=
  if app.paused then app
  else
    let elapsed := now - app.last_tick
    let app := { app with last_tick := now }
    match checked_sub app.time_remaining elapsed with
    | some new_remaining => { app with time_remaining := new_remaining }
    | none => App.advance_state { app with time_remaining := 0 }

/-- The configured duration, in time units, of a given phase — the value
`advance_state` and the reset handler seed `time_remaining` with. -/
def Config.duration_of (c : Config) : PomodoroState → Nat
  | PomodoroState.Work => c.work_duration * 60
  | PomodoroState.ShortBreak => c.short_break * 60
  | PomodoroState.LongBreak => c.long_break * 60

/-- The key codes the program inspects (`crossterm::event::KeyCode`);
all other codes fall into `other`. -/
inductive Key where
  | char (c : Char)
  | esc
  | down
  | up
  | left
  | right
  | other
deriving Repr, BEq, DecidableEq

/-- A key event (`crossterm::event::KeyEvent`): the code plus whether the
CONTROL modifier is held — the only modifier the program inspects. -/
structure KeyEvent where
  code : Key
  ctrl : Bool
deriving Repr, DecidableEq

/-- A terminal event (`crossterm::event::Event`) as dispatched by
`run_app`; `other` covers the events the program ignores. -/
inductive Event where
  | key (k : KeyEvent)
  | resize (w : Nat) (h : Nat)
  | other
deriving Repr, DecidableEq

/-- The fixed theme list used by `App::handle_config_input`. -/
def themes : List String :=
  ["blue", "purple", "green", "red", "orange", "cyan"]

/-- `Iterator::position`: index of the first element satisfying the
predicate, if any. -/
def position (p : String → Bool) : List String → Option Nat
  | [] => none
  | x :: rest => if p x then some 0 else (position p rest).map (· + 1)

/-- `App::handle_config_input`, restricted to its state effect; the
`save_config()` call on exit writes the (unchanged) configuration to the
external file and is modelled separately (`Config.toJson`).  The `u32`
increments use wrapping (release-mode) addition, written `% 2^32`. -/
def App.handle_config_input (app : App) (key : KeyEvent) : App :=
  match key.code with
  | Key.char 'q' | Key.esc =>
    let app := { app with config_mode := false }
    { app with theme := Theme.from_name app.config.theme }
  | Key.char 'j' | Key.down =>
    { app with config_cursor := min (app.config_cursor + 1) 4 }
  | Key.char 'k' | Key.up =>
    { app with config_cursor := app.config_cursor - 1 }
  | Key.char 'h' | Key.left =>
    match app.config_cursor with
    | 0 =>
      match position (fun t => t == app.config.theme) themes with
      | some pos =>
        let new_pos := if pos = 0 then themes.length - 1 else pos - 1
        let app :=
          { app with config := { app.config with theme := themes.getD new_pos "" } }
        { app with theme := Theme.from_name app.config.theme }
      | none => app
    | 1 => { app with config :=
        { app.config with work_duration := max (app.config.work_duration - 1) 1 } }
    | 2 => { app with config :=
        { app.config with short_break := max (app.config.short_break - 1) 1 } }
    | 3 => { app with config :=
        { app.config with long_break := max (app.config.long_break - 1) 1 } }
    | 4 => { app with config :=
        { app.config with cycles_before_long := max (app.config.cycles_before_long - 1) 1 } }
    | _ => app
  | Key.char 'l' | Key.right =>
    match app.config_cursor with
    | 0 =>
      match position (fun t => t == app.config.theme) themes with
      | some pos =>
        let new_pos := (pos + 1) % themes.length
        let app :=
          { app with config := { app.config with theme := themes.getD new_pos "" } }
        { app with theme := Theme.from_name app.config.theme }
      | none => app
    | 1 => { app with config :=
        { app.config with work_duration := min ((app.config.work_duration + 1) % 2 ^ 32) 120 } }
    | 2 => { app with config :=
        { app.config with short_break := min ((app.config.short_break + 1) % 2 ^ 32) 60 } }
    | 3 => { app with config :=
        { app.config with long_break := min ((app.config.long_break + 1) % 2 ^ 32) 120 } }
    | 4 => { app with config :=
        { app.config with cycles_before_long := min ((app.config.cycles_before_long + 1) % 2 ^ 32) 10 } }
    | _ => app
  | _ => app

/-- The Normal-mode key dispatch of `run_app` (after the global Ctrl-C
check).  The returned boolean is `false` exactly when the loop `break`s
(the quit keys).  Pause-toggling reads `Instant::now()`, passed as `now`. -/
def App.handle_normal_input (app : App) (now : Nat) (key : KeyEvent) :
    App × Bool :=
  match key.code with
  | Key.char 'q' | Key.char 'Q' => (app, false)
  | Key.char ' ' =>
    let app := { app with paused := !app.paused }
    (if !app.paused then { app with last_tick := now } else app, true)
  | Key.char 'r' | Key.char 'R' =>
    ({ app with paused := true, cycle_count := 0,
                state := PomodoroState.Work,
                time_remaining := app.config.work_duration * 60 }, true)
  | Key.char 's' | Key.char 'S' => (app.advance_state, true)
  | Key.char 'c' | Key.char 'C' => ({ app with config_mode := true }, true)
  | _ => (app, true)

/-- One iteration of the `run_app` loop: in config mode only the config
screen is drawn (the timer is not ticked); otherwise `update` runs first.
Then the polled event, if any, is dispatched.  Ctrl-C breaks in either
mode.  `now` is the instant observed during this iteration; the returned
boolean is `false` when the loop terminates. -/
def loopStep (app : App) (now : Nat) (ev : Option Event) : App × Bool :=
  let app := if app.config_mode then app else app.update now
  match ev with
  | none => (app, true)
  | some (Event.key k) =>
    if k.ctrl && k.code == Key.char 'c' then (app, false)
    else if app.config_mode then (app.handle_config_input k, true)
    else app.handle_normal_input now k
  | some (Event.resize w h) => ({ app with width := w, height := h }, true)
  | some Event.other => (app, true)

/-- Run a sequence of loop iterations, each given by the instant observed
during it and the event polled (if any); stops early when an iteration
breaks the loop, exactly as `run_app` does. -/
def runIters (app : App) : List (Nat × Option Event) → App
  | [] => app
  | (now, ev) :: rest =>
    let r := loopStep app now ev
    if r.2 then runIters r.1 rest else r.1

/-- The iteration sequence is spent in config mode: at the start of every
iteration the `config_mode` flag is set. -/
def allInConfigMode (app : App) : List (Nat × Option Event) → Prop
  | [] => True
  | (now, ev) :: rest =>
    app.config_mode = true ∧ allInConfigMode (loopStep app now ev).1 rest

/-- Run a sequence of bare `App::update` calls at the given instants. -/
def updateRun (app : App) : List Nat → App
  | [] => app
  | now :: rest => updateRun (app.update now) rest

/-- No call in the update sequence reaches expiry: at each call the
elapsed time is at most the remaining time, so `checked_sub` succeeds and
`advance_state` never fires. -/
def noExpiry (app : App) : List Nat → Prop
  | [] => True
  | now :: rest =>
    now - app.last_tick ≤ app.time_remaining ∧ noExpiry (app.update now) rest

/-- JSON values, at the level relevant to the `Config` record.  The text
layer (`serde_json` printing and parsing of this tree) is the external
storage collaborator; numbers carry the unsigned integers `Config` can
serialize. -/
inductive Json where
  | str (s : String)
  | num (n : Nat)
  | obj (fields : List (String × Json))
  | arr (elems : List Json)
  | bool (b : Bool)
  | null

/-- First binding of a field name in a JSON object's field list. -/
def jsonLookup (name : String) : List (String × Json) → Option Json
  | [] => none
  | (k, v) :: rest => if k = name then some v else jsonLookup name rest

/-- Deserializing a JSON value as a Rust `String` field. -/
def Json.asStr : Json → Option String
  | Json.str s => some s
  | _ => none

/-- Deserializing a JSON value as a Rust `u32` field: an unsigned integer
within `u32` range. -/
def Json.asU32 : Json → Option Nat
  | Json.num n => if n < 2 ^ 32 then some n else none
  | _ => none

/-- The derived `Serialize` impl of `Config`: an object with the five
fields in declaration order (this is the tree `serde_json::to_string_pretty`
prints in `App::save_config` and in `App::new` on first run). -/
def Config.toJson (c : Config) : Json :=
  Json.obj [("theme", Json.str c.theme),
            ("work_duration", Json.num c.work_duration),
            ("short_break", Json.num c.short_break),
            ("long_break", Json.num c.long_break),
            ("cycles_before_long", Json.num c.cycles_before_long)]

/-- The derived `Deserialize` impl of `Config` at the JSON-value level:
requires an object providing every field with the right type, ignores
unknown fields. -/
def Config.fromJson : Json → Option Config
  | Json.obj fields => do
    let theme ← (jsonLookup "theme" fields).bind Json.asStr
    let wd ← (jsonLookup "work_duration" fields).bind Json.asU32
    let sb ← (jsonLookup "short_break" fields).bind Json.asU32
    let lb ← (jsonLookup "long_break" fields).bind Json.asU32
    let cbl ← (jsonLookup "cycles_before_long" fields).bind Json.asU32
    pure ⟨theme, wd, sb, lb, cbl⟩
  | _ => none

/-- What `App::new` finds at the config path: no file, a file whose text
is not valid JSON, or a file parsing to a JSON value.  The text-to-tree
step is the external `serde_json`/filesystem boundary. -/
inductive ConfigFile where
  | absent
  | malformed
  | parsed (j : Json)

/-- The configuration `App::new` starts with: an absent file yields the
default (which is also written back), and an existing file is parsed with
`serde_json::from_str(..).unwrap_or_default()` — any failure (unparseable
text or a JSON value not matching `Config`) falls back to the default. -/
def loadConfig : ConfigFile → Config
  | ConfigFile.absent => Config.default
  | ConfigFile.malformed => Config.default
  | ConfigFile.parsed j => (Config.fromJson j).getD Config.default

/-- The key event for the pause key (space, no modifier). -/
def spaceKey : KeyEvent := ⟨Key.char ' ', false⟩

/-- The key event for the reset key. -/
def rKey : KeyEvent := ⟨Key.char 'r', false⟩

/-- The key event for the enter-config key. -/
def cKey : KeyEvent := ⟨Key.char 'c', false⟩

/-- The key event for decrement in the config editor. -/
def hKey : KeyEvent := ⟨Key.char 'h', false⟩

/-- The key event for increment in the config editor. -/
def lKey : KeyEvent := ⟨Key.char 'l', false⟩

/-- A freshly-constructed application state over the default
configuration, as `App::new` builds it (phase Work, remaining = work
duration, paused); `last_tick` is taken at epoch 0. -/
def baseApp : App :=
  { config := Config.default, state := PomodoroState.Work, cycle_count := 0,
    time_remaining := Config.default.work_duration * 60, last_tick := 0,
    paused := true, theme := Theme.from_name "blue", width := 80,
    height := 24, config_mode := false, config_cursor := 0 }

/-- The base state, running (paused flag cleared). -/
def runningApp : App := { baseApp with paused := false }

/-- A running state with exactly 5 time units remaining. -/
def nearEndApp : App := { runningApp with time_remaining := 5 }

/-- A running state with exactly 1 time unit remaining. -/
def expiringApp : App := { runningApp with time_remaining := 1 }

/-- A state whose stored theme name is not one of the six known names,
with the config cursor on the theme row. -/
def pinkApp : App :=
  { baseApp with config := { Config.default with theme := "pink" } }

/-- The base state inside the configuration editor. -/
def cfgApp : App := { baseApp with config_mode := true }

/-- A config-editor state with the cursor on work duration and the field
at its minimum. -/
def wdMinApp : App :=
  { cfgApp with config_cursor := 1,
                config := { Config.default with work_duration := 1 } }

/-- A config-editor state with the cursor on work duration and the field
at its maximum. -/
def wdMaxApp : App :=
  { cfgApp with config_cursor := 1,
                config := { Config.default with work_duration := 120 } }

/-- Unfolding of `App.update` on an unpaused state: the elapsed time is
`now - last_tick`, `last_tick` becomes `now`, and the branch is chosen by
comparing the elapsed time with the remaining time (`checked_sub`). -/
theorem update_eq_of_not_paused (app : App) (now : Nat)
    (hp : app.paused = false) :
    app.update now =
      if now - app.last_tick ≤ app.time_remaining then
        { app with last_tick := now,
                   time_remaining :=
                     app.time_remaining - (now - app.last_tick) }
      else
        App.advance_state { app with last_tick := now,
                                     time_remaining := 0 } := by
  by_cases hle : now - app.last_tick ≤ app.time_remaining
  · simp [App.update, hp, checked_sub, hle]
  · simp [App.update, hp, checked_sub, hle]

/-- C1: phase-advance from Work yields LongBreak with the cycle counter
reset to 0 when `cycle_count + 1` reaches `cycles_before_long`, and
otherwise ShortBreak with the counter incremented by exactly 1; from
either break it yields Work with the counter unchanged; and on every
transition the remaining time is reseeded to the configured duration of
the new phase and the paused flag is forced on. -/
theorem c1_phase_advance (app : App) :
    (app.state = PomodoroState.Work →
      app.config.cycles_before_long ≤ app.cycle_count + 1 →
      app.advance_state.state = PomodoroState.LongBreak ∧
      app.advance_state.cycle_count = 0) ∧
    (app.state = PomodoroState.Work →
      app.cycle_count + 1 < app.config.cycles_before_long →
      app.advance_state.state = PomodoroState.ShortBreak ∧
      app.advance_state.cycle_count = app.cycle_count + 1) ∧
    ((app.state = PomodoroState.ShortBreak ∨
      app.state = PomodoroState.LongBreak) →
      app.advance_state.state = PomodoroState.Work ∧
      app.advance_state.cycle_count = app.cycle_count) ∧
    app.advance_state.time_remaining =
      app.config.duration_of app.advance_state.state ∧
    app.advance_state.paused = true := by
  cases happ : app.state with
  | Work =>
    by_cases hc : app.config.cycles_before_long ≤ app.cycle_count + 1 <;>
      simp [App.advance_state, happ, hc, Config.duration_of]
  | ShortBreak => simp [App.advance_state, happ, Config.duration_of]
  | LongBreak => simp [App.advance_state, happ, Config.duration_of]

/-- Witness for C1 at a concrete state: from Work with 3 completed cycles
and threshold 4, phase-advance lands on LongBreak with the counter
cleared. -/
theorem c1_phase_advance_witness :
    ({ baseApp with cycle_count := 3 } : App).advance_state.state =
      PomodoroState.LongBreak ∧
    ({ baseApp with cycle_count := 3 } : App).advance_state.cycle_count = 0 :=
  (c1_phase_advance { baseApp with cycle_count := 3 }).1 rfl (by decide)

/-- C2 (amended): when not paused, `update(now)` computes the elapsed
time as `now` minus `last_tick`, stores `now` as the new `last_tick`, and
subtracts the elapsed time from the remaining time whenever the elapsed
time is at most the remaining time — so at exact equality the remaining
time becomes 0 without invoking phase-advance; only when the elapsed time
strictly exceeds the remaining time is the remaining time set to 0 and
phase-advance invoked in the same call. -/
theorem c2_update_step (app : App) (now : Nat) (hp : app.paused = false) :
    app.update now =
      if now - app.last_tick ≤ app.time_remaining then
        { app with last_tick := now,
                   time_remaining :=
                     app.time_remaining - (now - app.last_tick) }
      else
        App.advance_state { app with last_tick := now,
                                     time_remaining := 0 } :=
  update_eq_of_not_paused app now hp

/-- Witness for C2 at a concrete state: a running timer with 1500 units
remaining and 100 units elapsed drops to 1400 remaining. -/
theorem c2_update_step_witness :
    (runningApp.update 100).time_remaining = 1400 := by
  rw [c2_update_step runningApp 100 rfl]; rfl

/-- Counterexample to C2 as stated: with 5 units remaining and exactly 5
units elapsed, `update` sets the remaining time to 0 but does NOT invoke
phase-advance — the phase stays Work and the paused flag stays cleared,
whereas phase-advance would have produced ShortBreak with the paused flag
set. -/
theorem c2_counterexample :
    (nearEndApp.update 5).time_remaining = 0 ∧
    (nearEndApp.update 5).state = PomodoroState.Work ∧
    (nearEndApp.update 5).paused = false ∧
    (App.advance_state { nearEndApp with last_tick := 5,
                                         time_remaining := 0 }).state =
      PomodoroState.ShortBreak ∧
    nearEndApp.update 5 ≠
      App.advance_state { nearEndApp with last_tick := 5,
                                          time_remaining := 0 } := by
  decide

/-- C6: toggling pause on a paused state clears the paused flag and sets
`last_tick` to the current instant, so an immediately following
`update(now)` at the same instant charges zero elapsed time and leaves
the remaining time unchanged. -/
theorem c6_pause_resume_no_phantom_time (app : App) (now : Nat)
    (hp : app.paused = true) :
    (app.handle_normal_input now spaceKey).1.paused = false ∧
    (app.handle_normal_input now spaceKey).1.last_tick = now ∧
    ((app.handle_normal_input now spaceKey).1.update now).time_remaining =
      app.time_remaining := by
  have h1 : (app.handle_normal_input now spaceKey).1 =
      { app with paused := false, last_tick := now } := by
    obtain ⟨cfg, st, cc, tr, lt, p, th, w, h, cm, cur⟩ := app
    simp only at hp
    subst hp
    rfl
  rw [h1]
  refine ⟨rfl, rfl, ?_⟩
  simp [App.update, checked_sub]

/-- Witness for C6 at a concrete state: resuming the paused base state at
instant 42 and updating at instant 42 keeps the full 1500 units. -/
theorem c6_pause_resume_no_phantom_time_witness :
    ((baseApp.handle_normal_input 42 spaceKey).1.update 42).time_remaining =
      baseApp.time_remaining :=
  (c6_pause_resume_no_phantom_time baseApp 42 rfl).2.2

/-- C7: the manual-reset handler unconditionally yields phase Work, a
cleared cycle counter, the configured work duration remaining and the
paused flag set, and it is idempotent. -/
theorem c7_manual_reset (app : App) (now now2 : Nat) :
    (app.handle_normal_input now rKey).1.state = PomodoroState.Work ∧
    (app.handle_normal_input now rKey).1.cycle_count = 0 ∧
    (app.handle_normal_input now rKey).1.time_remaining =
      app.config.work_duration * 60 ∧
    (app.handle_normal_input now rKey).1.paused = true ∧
    ((app.handle_normal_input now rKey).1.handle_normal_input now2 rKey).1 =
      (app.handle_normal_input now rKey).1 := by
  refine ⟨rfl, rfl, rfl, rfl, rfl⟩

/-- Counterexample to C3 as stated: a single unpaused `update` call can
INCREASE the remaining time.  With 1 unit remaining and 2 units elapsed,
expiry fires and `advance_state` reseeds the remaining time to the short
break duration (300 units), which exceeds the prior value. -/
theorem c3_counterexample :
    expiringApp.paused = false ∧
    expiringApp.time_remaining = 1 ∧
    (expiringApp.update 2).time_remaining = 300 ∧
    expiringApp.time_remaining < (expiringApp.update 2).time_remaining := by
  decide

/-- C3 (amended): the remaining time is never negative (it is a duration,
kept non-negative by `checked_sub`), and across any sequence of unpaused
`update` calls in which no call's elapsed time exceeds the then-current
remaining time (so phase-advance never fires and reseeds it), the
remaining time is monotonically non-increasing. -/
theorem c3_remaining_monotone (app : App) (nows : List Nat)
    (hp : app.paused = false) (h : noExpiry app nows) :
    (updateRun app nows).time_remaining ≤ app.time_remaining ∧
    0 ≤ (updateRun app nows).time_remaining := by
  refine ⟨?_, Nat.zero_le _⟩
  induction nows generalizing app with
  | nil => exact Nat.le_refl _
  | cons n rest ih =>
    obtain ⟨h1, h2⟩ := h
    have hstep : app.update n =
        { app with last_tick := n,
                   time_remaining :=
                     app.time_remaining - (n - app.last_tick) } := by
      rw [update_eq_of_not_paused app n hp, if_pos h1]
    have hp' : (app.update n).paused = false := by rw [hstep]; exact hp
    calc (updateRun app (n :: rest)).time_remaining
        = (updateRun (app.update n) rest).time_remaining := rfl
      _ ≤ (app.update n).time_remaining := ih (app.update n) hp' h2
      _ = app.time_remaining - (n - app.last_tick) := by rw [hstep]
      _ ≤ app.time_remaining := Nat.sub_le _ _

/-- Witness for C3 (amended) at a concrete run: two unpaused updates at
instants 10 and 20 never increase the 1500 units remaining. -/
theorem c3_remaining_monotone_witness :
    (updateRun runningApp [10, 20]).time_remaining ≤
      runningApp.time_remaining :=
  (c3_remaining_monotone runningApp [10, 20] rfl
    (by refine ⟨by decide, by decide, trivial⟩)).1

/-- The config-mode key handler never touches the timer fields: phase,
cycle count, remaining time, paused flag and last tick are all
preserved, whatever the key. -/
theorem handle_config_preserves_timer (app : App) (k : KeyEvent) :
    (app.handle_config_input k).state = app.state ∧
    (app.handle_config_input k).cycle_count = app.cycle_count ∧
    (app.handle_config_input k).time_remaining = app.time_remaining ∧
    (app.handle_config_input k).paused = app.paused ∧
    (app.handle_config_input k).last_tick = app.last_tick := by
  unfold App.handle_config_input
  repeat' split
  all_goals exact ⟨rfl, rfl, rfl, rfl, rfl⟩

/-- A loop iteration that starts in config mode does not call `update`
and dispatches keys to the config handler, so it preserves every timer
field. -/
theorem configStep_preserves (app : App) (now : Nat) (ev : Option Event)
    (h : app.config_mode = true) :
    (loopStep app now ev).1.state = app.state ∧
    (loopStep app now ev).1.cycle_count = app.cycle_count ∧
    (loopStep app now ev).1.time_remaining = app.time_remaining ∧
    (loopStep app now ev).1.paused = app.paused ∧
    (loopStep app now ev).1.last_tick = app.last_tick := by
  cases ev with
  | none => simp [loopStep, h]
  | some e =>
    cases e with
    | key k =>
      simp only [loopStep, h, if_true]
      split
      · exact ⟨rfl, rfl, rfl, rfl, rfl⟩
      · simpa [h] using handle_config_preserves_timer app k
    | resize w hgt => simp [loopStep, h]
    | other => simp [loopStep, h]

/-- Any run of loop iterations each of which starts in config mode
preserves every timer field (the run may also stop early on Ctrl-C). -/
theorem configRun_preserves (app : App) (iters : List (Nat × Option Event))
    (h : allInConfigMode app iters) :
    (runIters app iters).state = app.state ∧
    (runIters app iters).cycle_count = app.cycle_count ∧
    (runIters app iters).time_remaining = app.time_remaining ∧
    (runIters app iters).paused = app.paused ∧
    (runIters app iters).last_tick = app.last_tick := by
  induction iters generalizing app with
  | nil => exact ⟨rfl, rfl, rfl, rfl, rfl⟩
  | cons it rest ih =>
    obtain ⟨n, e⟩ := it
    obtain ⟨h1, h2⟩ := h
    obtain ⟨hs, hc, ht, hpp, hl⟩ := configStep_preserves app n e h1
    by_cases hcont : (loopStep app n e).2 = true
    · have hrun : runIters app ((n, e) :: rest) =
          runIters (loopStep app n e).1 rest := by
        simp [runIters, hcont]
      obtain ⟨a, b, c, d, el⟩ := ih (loopStep app n e).1 h2
      rw [hrun]
      exact ⟨a.trans hs, b.trans hc, c.trans ht, d.trans hpp, el.trans hl⟩
    · have hrun : runIters app ((n, e) :: rest) = (loopStep app n e).1 := by
        simp [runIters, hcont]
      rw [hrun]
      exact ⟨hs, hc, ht, hpp, hl⟩

/-- C4: across any number of loop iterations spent in config mode, the
remaining time, the phase and the cycle count are unchanged — the timer
is never advanced while the config screen is up. -/
theorem c4_config_mode_freezes_timer (app : App)
    (iters : List (Nat × Option Event)) (h : allInConfigMode app iters) :
    (runIters app iters).state = app.state ∧
    (runIters app iters).cycle_count = app.cycle_count ∧
    (runIters app iters).time_remaining = app.time_remaining := by
  obtain ⟨hs, hc, ht, _, _⟩ := configRun_preserves app iters h
  exact ⟨hs, hc, ht⟩

/-- Witness for C4 at a concrete run: two config-mode iterations (a
cursor move, then an idle poll) leave the remaining time untouched. -/
theorem c4_config_mode_freezes_timer_witness :
    (runIters cfgApp
      [(5, some (Event.key ⟨Key.char 'j', false⟩)),
       (10, none)]).time_remaining = cfgApp.time_remaining :=
  (c4_config_mode_freezes_timer cfgApp
    [(5, some (Event.key ⟨Key.char 'j', false⟩)), (10, none)]
    ⟨rfl, rfl, trivial⟩).2.2

/-- C5: the enter-config handler changes only the `config_mode` flag
(paused and `last_tick` are untouched); hence if the timer was running
when config mode was entered, the first `update` after leaving the config
screen charges the whole interval since the pre-config `last_tick` —
subtracting it from the remaining time when it fits, and firing
phase-advance when it exceeds the remaining time. -/
theorem c5_config_entry_charges_elapsed (app : App) (now t1 : Nat)
    (iters : List (Nat × Option Event))
    (hp : app.paused = false)
    (hc : allInConfigMode { app with config_mode := true } iters) :
    app.handle_normal_input now cKey =
      ({ app with config_mode := true }, true) ∧
    (runIters { app with config_mode := true } iters).paused = false ∧
    (runIters { app with config_mode := true } iters).last_tick =
      app.last_tick ∧
    (runIters { app with config_mode := true } iters).time_remaining =
      app.time_remaining ∧
    (t1 - app.last_tick ≤ app.time_remaining →
      ((runIters { app with config_mode := true } iters).update
          t1).time_remaining =
        app.time_remaining - (t1 - app.last_tick)) ∧
    (app.time_remaining < t1 - app.last_tick →
      (runIters { app with config_mode := true } iters).update t1 =
        App.advance_state
          { runIters { app with config_mode := true } iters with
            last_tick := t1, time_remaining := 0 }) := by
  obtain ⟨hs, hcc, ht, hpp, hl⟩ :=
    configRun_preserves { app with config_mode := true } iters hc
  have hpause : (runIters { app with config_mode := true } iters).paused =
      false := hpp.trans hp
  have hlast : (runIters { app with config_mode := true } iters).last_tick =
      app.last_tick := hl
  have htr : (runIters { app with config_mode := true } iters).time_remaining =
      app.time_remaining := ht
  refine ⟨rfl, hpause, hlast, htr, ?_, ?_⟩
  · intro hle
    rw [update_eq_of_not_paused _ t1 hpause, hlast, htr, if_pos hle]
  · intro hgt
    rw [update_eq_of_not_paused _ t1 hpause, hlast, htr,
        if_neg (by omega)]

/-- Witness for C5 at a concrete run: entering config mode while running,
idling one config iteration, then updating at instant 100 charges the
full 100 units against the 1500 remaining. -/
theorem c5_config_entry_charges_elapsed_witness :
    ((runIters { runningApp with config_mode := true }
        [(5, none)]).update 100).time_remaining = 1400 :=
  (c5_config_entry_charges_elapsed runningApp 3 100 [(5, none)] rfl
    ⟨rfl, trivial⟩).2.2.2.2.1 (by decide)

/-- C8: in the config editor, every numeric field's decrement saturates
at 1 (and otherwise subtracts 1) and its increment saturates at the
field-specific maximum — 120 for work and long break, 60 for short break,
10 for the cycle count (and otherwise adds 1); the theme field wraps:
decrementing from the first theme yields the last and incrementing from
the last yields the first. -/
theorem c8_config_edit_bounds (app : App) :
    (app.config_cursor = 1 →
      1 ≤ (app.handle_config_input hKey).config.work_duration ∧
      (app.config.work_duration = 1 →
        (app.handle_config_input hKey).config.work_duration = 1) ∧
      (2 ≤ app.config.work_duration →
        (app.handle_config_input hKey).config.work_duration =
          app.config.work_duration - 1) ∧
      (app.handle_config_input lKey).config.work_duration ≤ 120 ∧
      (app.config.work_duration = 120 →
        (app.handle_config_input lKey).config.work_duration = 120) ∧
      (app.config.work_duration < 120 →
        (app.handle_config_input lKey).config.work_duration =
          app.config.work_duration + 1)) ∧
    (app.config_cursor = 2 →
      1 ≤ (app.handle_config_input hKey).config.short_break ∧
      (app.config.short_break = 1 →
        (app.handle_config_input hKey).config.short_break = 1) ∧
      (2 ≤ app.config.short_break →
        (app.handle_config_input hKey).config.short_break =
          app.config.short_break - 1) ∧
      (app.handle_config_input lKey).config.short_break ≤ 60 ∧
      (app.config.short_break = 60 →
        (app.handle_config_input lKey).config.short_break = 60) ∧
      (app.config.short_break < 60 →
        (app.handle_config_input lKey).config.short_break =
          app.config.short_break + 1)) ∧
    (app.config_cursor = 3 →
      1 ≤ (app.handle_config_input hKey).config.long_break ∧
      (app.config.long_break = 1 →
        (app.handle_config_input hKey).config.long_break = 1) ∧
      (2 ≤ app.config.long_break →
        (app.handle_config_input hKey).config.long_break =
          app.config.long_break - 1) ∧
      (app.handle_config_input lKey).config.long_break ≤ 120 ∧
      (app.config.long_break = 120 →
        (app.handle_config_input lKey).config.long_break = 120) ∧
      (app.config.long_break < 120 →
        (app.handle_config_input lKey).config.long_break =
          app.config.long_break + 1)) ∧
    (app.config_cursor = 4 →
      1 ≤ (app.handle_config_input hKey).config.cycles_before_long ∧
      (app.config.cycles_before_long = 1 →
        (app.handle_config_input hKey).config.cycles_before_long = 1) ∧
      (2 ≤ app.config.cycles_before_long →
        (app.handle_config_input hKey).config.cycles_before_long =
          app.config.cycles_before_long - 1) ∧
      (app.handle_config_input lKey).config.cycles_before_long ≤ 10 ∧
      (app.config.cycles_before_long = 10 →
        (app.handle_config_input lKey).config.cycles_before_long = 10) ∧
      (app.config.cycles_before_long < 10 →
        (app.handle_config_input lKey).config.cycles_before_long =
          app.config.cycles_before_long + 1)) ∧
    (app.config_cursor = 0 →
      (app.config.theme = "blue" →
        (app.handle_config_input hKey).config.theme = "cyan") ∧
      (app.config.theme = "cyan" →
        (app.handle_config_input lKey).config.theme = "blue")) := by
  refine ⟨?_, ?_, ?_, ?_, ?_⟩
  · intro hcur
    simp only [App.handle_config_input, hKey, lKey, hcur]
    omega
  · intro hcur
    simp only [App.handle_config_input, hKey, lKey, hcur]
    omega
  · intro hcur
    simp only [App.handle_config_input, hKey, lKey, hcur]
    omega
  · intro hcur
    simp only [App.handle_config_input, hKey, lKey, hcur]
    omega
  · intro hcur
    constructor
    · intro hth
      simp [App.handle_config_input, hKey, hcur, hth, position, themes]
    · intro hth
      simp [App.handle_config_input, lKey, hcur, hth, position, themes]

/-- Witness for C8 at concrete states: decrementing work duration 1
stays at 1, incrementing work duration 120 stays at 120, and theme
decrement from blue wraps to cyan. -/
theorem c8_config_edit_bounds_witness :
    (wdMinApp.handle_config_input hKey).config.work_duration = 1 ∧
    (wdMaxApp.handle_config_input lKey).config.work_duration = 120 ∧
    (cfgApp.handle_config_input hKey).config.theme = "cyan" := by
  refine ⟨?_, ?_, ?_⟩
  · exact ((c8_config_edit_bounds wdMinApp).1 rfl).2.1 rfl
  · exact ((c8_config_edit_bounds wdMaxApp).1 rfl).2.2.2.2.1 rfl
  · exact ((c8_config_edit_bounds cfgApp).2.2.2.2 rfl).1 rfl

/-- C9: deserializing the serialized form of any configuration (with its
`u32` fields in range) returns that same configuration, and loading from
an absent file, from unparseable text, or from a JSON value that does not
deserialize as a configuration, yields exactly the built-in default
without failing. -/
theorem c9_config_roundtrip_and_default_fallback :
    (∀ c : Config, c.work_duration < 2 ^ 32 → c.short_break < 2 ^ 32 →
      c.long_break < 2 ^ 32 → c.cycles_before_long < 2 ^ 32 →
      Config.fromJson (Config.toJson c) = some c) ∧
    loadConfig ConfigFile.absent = Config.default ∧
    loadConfig ConfigFile.malformed = Config.default ∧
    (∀ j : Json, Config.fromJson j = none →
      loadConfig (ConfigFile.parsed j) = Config.default) := by
  refine ⟨?_, rfl, rfl, ?_⟩
  · intro c h1 h2 h3 h4
    norm_num at h1 h2 h3 h4
    simp [Config.toJson, Config.fromJson, jsonLookup, Json.asStr,
          Json.asU32, h1, h2, h3, h4]
  · intro j hj
    simp [loadConfig, hj]

/-- Witness for C9 at concrete values: the default configuration
round-trips, and a bare JSON number loads as the default. -/
theorem c9_config_roundtrip_and_default_fallback_witness :
    Config.fromJson (Config.toJson Config.default) = some Config.default ∧
    loadConfig (ConfigFile.parsed (Json.num 3)) = Config.default := by
  constructor
  · exact c9_config_roundtrip_and_default_fallback.1 Config.default
      (by decide) (by decide) (by decide) (by decide)
  · exact c9_config_roundtrip_and_default_fallback.2.2.2 (Json.num 3) rfl

/-- C10: `Theme::from_name` maps every unrecognized name to the blue
theme's colours, and with the cursor on the theme row the decrement and
increment commands leave an unrecognized stored theme name unchanged
(the `position` lookup fails, so cycling is a no-op). -/
theorem c10_unknown_theme_name (name : String) (app : App)
    (hn : name ∉ themes)
    (ht : app.config.theme = name)
    (hcur : app.config_cursor = 0) :
    Theme.from_name name = Theme.from_name "blue" ∧
    (app.handle_config_input hKey).config.theme = name ∧
    (app.handle_config_input lKey).config.theme = name := by
  simp only [themes, List.mem_cons, List.not_mem_nil, or_false,
             not_or] at hn
  obtain ⟨h1, h2, h3, h4, h5, h6⟩ := hn
  have hpos : position (fun t => t == name) themes = none := by
    simp [position, themes, Ne.symm h1, Ne.symm h2, Ne.symm h3,
          Ne.symm h4, Ne.symm h5, Ne.symm h6]
  refine ⟨?_, ?_, ?_⟩
  · unfold Theme.from_name
    split <;> simp_all
  · simp [App.handle_config_input, hKey, hcur, ht, hpos]
  · simp [App.handle_config_input, lKey, hcur, ht, hpos]

/-- Witness for C10 at a concrete state: the name "pink" is unknown, maps
to the blue theme, and theme cycling leaves it in place. -/
theorem c10_unknown_theme_name_witness :
    Theme.from_name "pink" = Theme.from_name "blue" ∧
    (pinkApp.handle_config_input hKey).config.theme = "pink" :=
  ⟨(c10_unknown_theme_name "pink" pinkApp (by decide) rfl rfl).1,
   (c10_unknown_theme_name "pink" pinkApp (by decide) rfl rfl).2.1⟩

end Rpomodoro
